import Mathlib

/-
Verification of the StatPad natural-language query engine specification
against the repository.

The repository ships the frontend (React components, the axios API client)
and documentation; the backend query engine (backend/app/services/nlp_query.py)
is referenced by the docs and called by the frontend but its source is not in
the tree.  Definitions for the engine below are therefore modelled from the
specification text; definitions for the API client and the display components
are translated from the JavaScript source directly.
-/

namespace StatPad

/-! ## Text utilities (modelled helpers used by the engine model) -/

/-- Lowercase a string character by character. -/
def myLower (s : String) : String := String.mk (s.data.map Char.toLower)

/-- Strip sentence punctuation from a token. -/
def stripPunct (s : String) : String :=
  String.mk (s.data.filter (fun c => !(c = '?' || c = '!' || c = ',' || c = '.')))

/-- Split a character list into space-separated words (accumulator-based). -/
def wordsAux : List Char → List Char → List String
  | [], acc => if acc.isEmpty then [] else [String.mk acc.reverse]
  | c :: cs, acc =>
    if c = ' ' then
      if acc.isEmpty then wordsAux cs [] else String.mk acc.reverse :: wordsAux cs []
    else wordsAux cs (c :: acc)

/-- Tokenize query text: split on spaces, strip punctuation, drop empties. -/
def tokenize (s : String) : List String :=
  ((wordsAux s.data []).map stripPunct).filter (fun t => !(t == ""))

/-- Join name tokens back into a single space-separated span. -/
def joinName : List String → String
  | [] => ""
  | [t] => t
  | t :: ts => t ++ " " ++ joinName ts

/-- A token made only of decimal digits. -/
def isAllDigits (t : String) : Bool := !(t == "") && t.data.all Char.isDigit

/-- Read a run of decimal digit characters as a natural number. -/
def digitsToNat : List Char → Nat → Nat
  | [], acc => acc
  | c :: cs, acc => digitsToNat cs (acc * 10 + (c.toNat - 48))

/-- The numeric value of an all-digit token. -/
def tokToNat (t : String) : Nat := digitsToNat t.data 0

/-- Split a character list at its first hyphen. -/
def dashSplit : List Char → Option (List Char × List Char)
  | [] => none
  | c :: cs =>
    if c = '-' then some ([], cs)
    else
      match dashSplit cs with
      | some (l, r) => some (c :: l, r)
      | none => none

/-- A token that looks like a season span: digits, hyphen, digits. -/
def seasonLike (t : String) : Bool :=
  match dashSplit t.data with
  | some (l, r) => !(l.isEmpty) && !(r.isEmpty) && l.all Char.isDigit && r.all Char.isDigit
  | none => false

/-- The exact accepted season form: four digits, hyphen, two digits (YYYY-YY). -/
def validSeason (t : String) : Bool :=
  match dashSplit t.data with
  | some (l, r) => (l.length == 4) && (r.length == 2) && l.all Char.isDigit && r.all Char.isDigit
  | none => false

/-! ## Entity index and resolver (modelled from the spec, section 4.2) -/

/-- The kind of a known entity. -/
inductive EntityKind where
  | player
  | team
deriving DecidableEq

/-- An entity-index entry: canonical name, aliases, kind. -/
structure Entry where
  canonical : String
  aliases : List String
  kind : EntityKind
deriving DecidableEq

/-- The process-wide entity index, modelled as an immutable list of entries. -/
abbrev EntityIndex := List Entry

/-- All names an entry answers to. -/
def namesOf (e : Entry) : List String := e.canonical :: e.aliases

/-- Tier 1: exact case-sensitive match against canonical name or alias. -/
def exactMatch (frag : String) (e : Entry) : Bool := (namesOf e).any (fun n => n == frag)

/-- Tier 2: case-insensitive match. -/
def ciMatch (frag : String) (e : Entry) : Bool :=
  (namesOf e).any (fun n => myLower n == myLower frag)

/-- One inner step of the Levenshtein dynamic program: extend the new row
along the remaining second-word characters, carrying the previous row. -/
def rowAux (x : Char) : List Char → List Nat → Nat → List Nat
  | [], _, _ => []
  | y :: ys, p0 :: p1 :: ps, cur =>
    let nxt := min (cur + 1) (min (p1 + 1) (p0 + (if x = y then 0 else 1)))
    nxt :: rowAux x ys (p1 :: ps) nxt
  | _ :: _, _, _ => []

/-- One outer step of the Levenshtein dynamic program: the row for one more
character of the first word. -/
def stepRow (x : Char) (ys : List Char) (prevRow : List Nat) : List Nat :=
  match prevRow with
  | [] => []
  | p0 :: _ => (p0 + 1) :: rowAux x ys prevRow (p0 + 1)

/-- Run the Levenshtein dynamic program over the first word. -/
def levRows : List Char → List Char → List Nat → List Nat
  | [], _, row => row
  | x :: xs, ys, row => levRows xs ys (stepRow x ys row)

/-- Last entry of a row (zero only for the empty row). -/
def lastD : List Nat → Nat
  | [] => 0
  | [x] => x
  | _ :: xs => lastD xs

/-- Levenshtein edit distance between two character lists, computed by the
standard row-by-row dynamic program. -/
def lev (a b : List Char) : Nat :=
  lastD (levRows a b (List.range (b.length + 1)))

/-- Fuzzy-normalization of a name: strip punctuation, collapse whitespace,
lowercase (spec section 4.2, tier 3). -/
def normChars (s : String) : List Char :=
  (joinName ((tokenize s).map myLower)).data

/-- Modelled from the spec: the bounded fuzzy threshold, at least one edit and
scaling with fragment length (the source backend is not in the tree;
the spec leaves the exact bound open, section 9). -/
def fuzzyThreshold (frag : String) : Nat := max 1 (frag.data.length / 4)

/-- Does the needle occur as a contiguous run at the head of the haystack? -/
def headRun : List Char → List Char → Bool
  | [], _ => true
  | _ :: _, [] => false
  | a :: as, b :: bs => a = b && headRun as bs

/-- Does the needle occur as a contiguous run anywhere in the haystack? -/
def isSubList : List Char → List Char → Bool
  | [], _ => true
  | _ :: _, [] => false
  | n :: ns, h :: hs => headRun (n :: ns) (h :: hs) || isSubList (n :: ns) hs

/-- Case-insensitive substring test between strings. -/
def substrOf (needle hay : String) : Bool :=
  isSubList (myLower needle).data (myLower hay).data

/-- Tier 3: fuzzy match by bounded edit distance on normalized names, or
case-insensitive substring containment (handles partial names). -/
def fuzzyMatch (frag : String) (e : Entry) : Bool :=
  (namesOf e).any (fun n =>
    (lev (normChars frag) (normChars n) ≤ fuzzyThreshold frag) || substrOf frag n)

/-- Minimum of a list of naturals (zero only for the empty list). -/
def minD : List Nat → Nat
  | [] => 0
  | [x] => x
  | x :: xs => min x (minD xs)

/-- Best normalized edit distance from a fragment to any of an entry's names. -/
def entryDist (frag : String) (e : Entry) : Nat :=
  minD ((namesOf e).map (fun n => lev (normChars frag) (normChars n)))

/-- Restrict the index to a kind pool when a hint is given. -/
def candidatePool (idx : EntityIndex) (pool : Option EntityKind) : List Entry :=
  match pool with
  | some k => idx.filter (fun e => e.kind == k)
  | none => idx

/-- Matches at the best confidence tier: exact, then case-insensitive, then fuzzy. -/
def tierMatches (idx : EntityIndex) (pool : Option EntityKind) (frag : String) : List Entry :=
  let cands := candidatePool idx pool
  let t1 := cands.filter (fun e => exactMatch frag e)
  if !t1.isEmpty then t1
  else
    let t2 := cands.filter (fun e => ciMatch frag e)
    if !t2.isEmpty then t2
    else cands.filter (fun e => fuzzyMatch frag e)

/-- Candidates that match at the best tier and tie at the best edit distance
(the tie-break of spec section 4.2). -/
def bestMatches (idx : EntityIndex) (pool : Option EntityKind) (frag : String) : List Entry :=
  let ms := tierMatches idx pool frag
  let d := minD (ms.map (entryDist frag))
  ms.filter (fun e => entryDist frag e == d)

/-- The outcome of resolving one name fragment. -/
inductive Resolution where
  | notFound
  | resolved (e : Entry)
  | ambiguous (es : List Entry)
deriving DecidableEq

/-- Modelled from the spec: resolve a fragment to zero, one, or many canonical
entities (section 4.2); ties between distinct entities are reported as
ambiguity, never silently resolved to the first candidate. -/
def resolve (idx : EntityIndex) (pool : Option EntityKind) (frag : String) : Resolution :=
  match bestMatches idx pool frag with
  | [] => .notFound
  | [e] => .resolved e
  | e1 :: e2 :: rest => .ambiguous (e1 :: e2 :: rest)

/-- A fragment that resolves to exactly one entity of the given kind. -/
def resolveUnique (idx : EntityIndex) (k : EntityKind) (frag : String) : Option Entry :=
  match resolve idx (some k) frag with
  | .resolved e => some e
  | _ => none

/-! ## Pattern classifier (modelled from the spec, section 4.1) -/

/-- A comparison separator keyword between two name spans. -/
def isSeparator (t : String) : Bool :=
  let l := myLower t
  l == "vs" || l == "versus" || l == "and"

/-- Split a token list at the first separator keyword. -/
def splitAtSep : List String → Option (List String × List String)
  | [] => none
  | t :: rest =>
    if isSeparator t then some ([], rest)
    else
      match splitAtSep rest with
      | some (l, r) => some (t :: l, r)
      | none => none

/-- Drop a leading comparison verb before the first name span. -/
def dropCompare : List String → List String
  | [] => []
  | t :: rest => if myLower t == "compare" then rest else t :: rest

/-- Tokens that end a name span on the right of the separator. -/
def isStopTok (t : String) : Bool :=
  let l := myLower t
  l == "in" || l == "last" || l == "game" || l == "games" || l == "logs" ||
    isAllDigits t || seasonLike t

/-- Extract the two name spans of a comparison-shaped query, when present. -/
def extractTwoNames (toks : List String) : Option (String × String) :=
  match splitAtSep toks with
  | none => none
  | some (l, r) =>
    let a := joinName (dropCompare l)
    let b := joinName (r.takeWhile (fun t => !(isStopTok t)))
    if a == "" || b == "" then none else some (a, b)

/-- A query is game-log shaped when it carries a last-N-games phrase or asks
for game logs. -/
def gameLogShaped (toks : List String) : Bool :=
  (toks.any (fun t => myLower t == "last") && toks.any (fun t => myLower t == "games")) ||
    toks.any (fun t => myLower t == "logs")

/-- Capture the integer literal of a last-N-games phrase: the first
all-digit token directly after the keyword last.  Textual numerals are
not accepted. -/
def lastNOf : List String → Option Nat
  | [] => none
  | t :: rest =>
    if myLower t == "last" then
      match rest with
      | [] => none
      | u :: _ => if isAllDigits u then some (tokToNat u) else lastNOf rest
    else lastNOf rest

/-- The first well-formed YYYY-YY season token of the query, if any. -/
def seasonOf (toks : List String) : Option String := toks.find? validSeason

/-- The first season-like token that does not match YYYY-YY exactly, if any. -/
def badSeasonOf (toks : List String) : Option String :=
  toks.find? (fun t => seasonLike t && !(validSeason t))

/-- English filler words ignored when carving a single name span out of a
stats question. -/
def isFiller (t : String) : Bool :=
  let l := myLower t
  l == "how" || l == "many" || l == "did" || l == "in" || l == "what" ||
    l == "the" || l == "points" || l == "stats" || l == "stat" || l == "score" ||
    l == "scored" || l == "scoring" || l == "per" || l == "game" || l == "games" ||
    l == "average" || l == "averages" || l == "season" || l == "much" ||
    l == "is" || l == "was" || l == "for" || l == "a" || l == "of" ||
    l == "last" || l == "logs" || l == "rebounds" || l == "assists"

/-- The single name span of a stats question, if any tokens remain after
filtering filler, numbers, and season tokens. -/
def singleNameOf (toks : List String) : Option String :=
  let nt := toks.filter (fun t => !(isFiller t || isAllDigits t || seasonLike t))
  if nt.isEmpty then none else some (joinName nt)

/-- A points-or-stats keyword required by the single-player stats shape. -/
def hasStatKeyword (toks : List String) : Bool :=
  toks.any (fun t =>
    let l := myLower t
    l == "points" || l == "stats" || l == "stat" || l == "score" || l == "scored" ||
      l == "scoring" || l == "rebounds" || l == "assists" || l == "average" ||
      l == "averages")

/-- The shape a query classifies to, with its raw captures (spec section 4.1). -/
inductive Shape where
  | singleStats (name : String) (season : String)
  | comparisonSeason (name1 name2 : String) (season : Option String)
  | comparisonGameLogs (name1 name2 : String) (lastN : Option Nat)
  | unrecognized
deriving DecidableEq

/-- Modelled from the spec: the ordered shape rules of section 4.1, first match
wins.  Rule 1 (two names plus a last-N-games phrase) precedes rule 2/3 (plain
season comparison) and captures no season; rule 4 is single name, season and a
stat keyword; anything else is unrecognized. -/
def classify (toks : List String) : Shape :=
  match extractTwoNames toks with
  | some (a, b) =>
    if gameLogShaped toks then .comparisonGameLogs a b (lastNOf toks)
    else .comparisonSeason a b (seasonOf toks)
  | none =>
    match singleNameOf toks, seasonOf toks with
    | some nm, some s => if hasStatKeyword toks then .singleStats nm s else .unrecognized
    | _, _ => .unrecognized

/-! ## Query interpreter (modelled from the spec, sections 3 and 4.3) -/

/-- The typed failure taxonomy of spec section 4.3 (DataUnavailable arises at
dispatch time and is reported directly as an error envelope). -/
inductive QueryError where
  | unrecognized
  | entityNotFound (span : String)
  | ambiguousEntity (span : String) (candidates : List String)
  | invalidSeason (text : String)
  | missingRequiredField (field : String)
deriving DecidableEq

/-- A fully resolved, ready-to-dispatch request (spec section 3). -/
inductive Query where
  | playerStats (player season : String)
  | playerComparisonSeason (p1 p2 season : String)
  | playerComparisonGameLogs (p1 p2 : String) (lastN : Option Nat)
  | teamComparisonSeason (t1 t2 season : String)
  | teamComparisonGameLogs (t1 t2 : String) (lastN : Option Nat)
deriving DecidableEq

/-- The season captured by a resolved query, when its intent carries one. -/
def Query.seasonOfQuery : Query → Option String
  | .playerStats _ s => some s
  | .playerComparisonSeason _ _ s => some s
  | .teamComparisonSeason _ _ s => some s
  | _ => none

/-- The last-N window of a resolved query, when its intent carries one. -/
def Query.lastNOfQuery : Query → Option Nat
  | .playerComparisonGameLogs _ _ n => n
  | .teamComparisonGameLogs _ _ n => n
  | _ => none

/-- The error reported for one unresolvable span: ambiguity in either pool is
reported as such, otherwise the span is not found. -/
def fragError (idx : EntityIndex) (frag : String) : QueryError :=
  match resolve idx (some .player) frag with
  | .ambiguous es => .ambiguousEntity frag (es.map Entry.canonical)
  | _ =>
    match resolve idx (some .team) frag with
    | .ambiguous es => .ambiguousEntity frag (es.map Entry.canonical)
    | _ => .entityNotFound frag


/-- The error naming the first span that resolves in neither pool (spec 4.1:
mixed or unresolved comparisons report a not-found or ambiguity failure). -/
def spanError (idx : EntityIndex) (a b : String) : QueryError :=
  if (resolveUnique idx .player a).isNone && (resolveUnique idx .team a).isNone then
    fragError idx a
  else fragError idx b

/-- Pair two optional unique resolutions when both succeeded. -/
def bothUnique : Option Entry → Option Entry → Option (Entry × Entry)
  | some x, some y => some (x, y)
  | _, _ => none

/-- Modelled from the spec: interpret a classified shape by resolving every
name span (players first, then teams, preferring the pool that resolves both
spans, section 4.1/4.2) and validating required fields (section 4.3). -/
def interpretShape (idx : EntityIndex) (toks : List String) : Except QueryError Query :=
  match classify toks with
  | .unrecognized => .error .unrecognized
  | .singleStats nm s =>
    match resolve idx (some .player) nm with
    | .resolved e => .ok (.playerStats e.canonical s)
    | .ambiguous es => .error (.ambiguousEntity nm (es.map Entry.canonical))
    | .notFound => .error (.entityNotFound nm)
  | .comparisonSeason a b so =>
    match bothUnique (resolveUnique idx .player a) (resolveUnique idx .player b) with
    | some (ea, eb) =>
      match so with
      | some s => .ok (.playerComparisonSeason ea.canonical eb.canonical s)
      | none => .error (.missingRequiredField "season")
    | none =>
      match bothUnique (resolveUnique idx .team a) (resolveUnique idx .team b) with
      | some (ta, tb) =>
        match so with
        | some s => .ok (.teamComparisonSeason ta.canonical tb.canonical s)
        | none => .error (.missingRequiredField "season")
      | none => .error (spanError idx a b)
  | .comparisonGameLogs a b n =>
    match bothUnique (resolveUnique idx .player a) (resolveUnique idx .player b) with
    | some (ea, eb) => .ok (.playerComparisonGameLogs ea.canonical eb.canonical n)
    | none =>
      match bothUnique (resolveUnique idx .team a) (resolveUnique idx .team b) with
      | some (ta, tb) => .ok (.teamComparisonGameLogs ta.canonical tb.canonical n)
      | none => .error (spanError idx a b)

/-- Modelled from the spec: interpret(rawText), section 4.3.  A season-like
token that is not of the exact YYYY-YY form fails with InvalidSeason before
any shape is considered, and is never coerced. -/
def interpret (idx : EntityIndex) (text : String) : Except QueryError Query :=
  let toks := tokenize text
  match badSeasonOf toks with
  | some t => .error (.invalidSeason t)
  | none => interpretShape idx toks

instance {e a : Type} [DecidableEq e] [DecidableEq a] : DecidableEq (Except e a) := fun x y =>
  match x, y with
  | .error u, .error v =>
    if h : u = v then .isTrue (congrArg Except.error h)
    else .isFalse (fun hc => h (Except.error.inj hc))
  | .ok u, .ok v =>
    if h : u = v then .isTrue (congrArg Except.ok h)
    else .isFalse (fun hc => h (Except.ok.inj hc))
  | .error _, .ok _ => .isFalse (fun hc => Except.noConfusion hc)
  | .ok _, .error _ => .isFalse (fun hc => Except.noConfusion hc)

/-! ## Dispatcher and result envelope (modelled from the spec, sections 4.4 and 6) -/

/-- One season aggregate line for a player (spec section 6 response table). -/
structure PlayerSeasonStats where
  name : String
  season : String
  points_per_game : Option Rat
  total_rebounds : Option Rat
  assists : Option Rat
  field_goal_percentage : Option Rat
deriving DecidableEq

/-- One game-log line (spec section 6 response table). -/
structure GameLog where
  game_date : Nat
  home_team : String
  away_team : String
  home_score : Nat
  away_score : Nat
deriving DecidableEq

/-- The intent-specific payload of a result envelope; its constructor is fully
determined by the envelope type string (spec section 6). -/
inductive EnvelopeData where
  | stats (s : PlayerSeasonStats)
  | comparison (player1 player2 : PlayerSeasonStats)
  | gameLogs (game_logs : List GameLog)
  | errorMsg (message : String)
deriving DecidableEq

/-- The uniform response envelope (spec sections 3 and 6). -/
structure ResultEnvelope where
  type : String
  original_query : String
  data : EnvelopeData
deriving DecidableEq

/-- The storage collaborator consumed by the dispatcher (spec section 6),
modelled as injected lookup functions. -/
structure Storage where
  lookupPlayerSeason : String → String → Option PlayerSeasonStats
  lookupHeadToHeadGames : String → String → Option String → Option Nat → Option (List GameLog)
  lookupTeamSeason : String → String → String → Option (List GameLog)

/-- Most-recent-first ordering on game logs. -/
def recentFirst (g1 g2 : GameLog) : Prop := g2.game_date ≤ g1.game_date

instance : DecidableRel recentFirst := fun g1 g2 => Nat.decLe g2.game_date g1.game_date

instance : IsTotal GameLog recentFirst :=
  ⟨fun a b => Nat.le_total b.game_date a.game_date⟩

instance : IsTrans GameLog recentFirst :=
  ⟨fun _ _ _ hab hbc => le_trans hbc hab⟩

/-- Sort game logs most-recent-first. -/
def sortDesc (logs : List GameLog) : List GameLog := List.insertionSort recentFirst logs

/-- Modelled from the spec: the envelope game-log sequence is ordered
most-recent-first and truncated to the last N games exactly when a last-N
window was captured; with no window, all available games are kept
(spec sections 4.1 and 6). -/
def capAndSort (lastN : Option Nat) (logs : List GameLog) : List GameLog :=
  match lastN with
  | some n => (sortDesc logs).take n
  | none => sortDesc logs

/-- Message of the data-availability failure (spec section 4.4). -/
def dataUnavailableMessage : String := "No data available for this query."

/-- Message of the empty-request validation failure (spec section 6). -/
def emptyQueryMessage : String := "Query text must not be empty."

/-- Human-readable message for each interpreter failure (spec section 7). -/
def QueryError.message : QueryError → String
  | .unrecognized =>
    "Could not understand the query. Please try rephrasing, for example: Compare Stephen Curry and LeBron James in 2023-24."
  | .entityNotFound span => "No player or team named " ++ span ++ " was found."
  | .ambiguousEntity span _ =>
    "The name " ++ span ++ " matches more than one player or team. Please be more specific."
  | .invalidSeason t => "Invalid season format " ++ t ++ ". Use the form YYYY-YY, for example 2023-24."
  | .missingRequiredField f => "Missing required field " ++ f ++ "."

/-- Modelled from the spec: dispatch(Query), section 4.4.  Each intent maps to
exactly one storage call; absent data degrades to an error envelope.  The
section 6 response table has no separate team season comparison row, so the
team season comparison is enveloped with its game logs under
team_comparison_game_logs. -/
def dispatch (st : Storage) (text : String) : Query → ResultEnvelope
  | .playerStats p s =>
    match st.lookupPlayerSeason p s with
    | some stats => ⟨"player_stats", text, .stats stats⟩
    | none => ⟨"error", text, .errorMsg dataUnavailableMessage⟩
  | .playerComparisonSeason a b s =>
    match st.lookupPlayerSeason a s, st.lookupPlayerSeason b s with
    | some s1, some s2 => ⟨"player_comparison", text, .comparison s1 s2⟩
    | _, _ => ⟨"error", text, .errorMsg dataUnavailableMessage⟩
  | .playerComparisonGameLogs a b n =>
    match st.lookupHeadToHeadGames a b none n with
    | some logs => ⟨"player_comparison_game_logs", text, .gameLogs (capAndSort n logs)⟩
    | none => ⟨"error", text, .errorMsg dataUnavailableMessage⟩
  | .teamComparisonSeason a b s =>
    match st.lookupTeamSeason a b s with
    | some logs => ⟨"team_comparison_game_logs", text, .gameLogs (capAndSort none logs)⟩
    | none => ⟨"error", text, .errorMsg dataUnavailableMessage⟩
  | .teamComparisonGameLogs a b n =>
    match st.lookupHeadToHeadGames a b none n with
    | some logs => ⟨"team_comparison_game_logs", text, .gameLogs (capAndSort n logs)⟩
    | none => ⟨"error", text, .errorMsg dataUnavailableMessage⟩

/-- A blank request body (empty or all spaces). -/
def isBlankQuery (text : String) : Bool := text.data.all (fun c => c = ' ')

/-- Modelled from the spec: the single boundary operation
processQuery(text) of section 6.  An empty request is a validation failure,
every interpreter failure becomes an error envelope, and a resolved query is
dispatched; the function is total, so no input propagates an unhandled fault. -/
def processQuery (st : Storage) (idx : EntityIndex) (text : String) : ResultEnvelope :=
  if isBlankQuery text then ⟨"error", text, .errorMsg emptyQueryMessage⟩
  else
    match interpret idx text with
    | .error e => ⟨"error", text, .errorMsg e.message⟩
    | .ok q => dispatch st text q

/-! ## Frontend source embeddings -/

/-- From src/frontend/src/components/NaturalLanguageQuery.jsx, renderResult:
the game-log table renders data.game_logs.slice(0, 10), presenting at most
the first ten rows of the returned sequence. -/
def renderedGameLogRows (logs : List GameLog) : List GameLog := logs.take 10

/-- A JavaScript value as seen by the stat formatters: null, undefined, a
number (every finite double is a rational, so numbers are modelled as Rat),
a string, a boolean, or some other object. -/
inductive JSValue where
  | nullv
  | undef
  | num (q : Rat)
  | str (s : String)
  | bool (b : Bool)
  | obj
deriving DecidableEq

/-- The decimal digit character for n modulo ten. -/
def digitChar (n : Nat) : Char := Char.ofNat (48 + n % 10)

/-- Number.prototype.toFixed(1) on a rational: round to tenths, picking the
larger value on ties as toFixed does (the floor of 10q + 1/2, computed by
integer floor division on numerator and denominator), and print with exactly
one digit after the decimal point. -/
def toFixed1 (q : Rat) : String :=
  let n : Int := Int.fdiv (20 * q.num + (q.den : Int)) (2 * (q.den : Int))
  let m : Nat := n.natAbs
  (if n < 0 then "-" else "") ++ toString (m / 10) ++ "." ++ String.singleton (digitChar m)

/-- From src/frontend/src/components/NaturalLanguageQuery.jsx, formatStat:
N/A for null or undefined, toFixed(1) for a number, the value unchanged
otherwise. -/
def formatStatNLQ : JSValue → JSValue
  | .nullv => .str "N/A"
  | .undef => .str "N/A"
  | .num q => .str (toFixed1 q)
  | .str s => .str s
  | .bool b => .bool b
  | .obj => .obj

/-- From src/frontend/src/components/PlayerStats.jsx, formatStat (textually
identical to the NaturalLanguageQuery copy). -/
def formatStatPlayerStats : JSValue → JSValue
  | .nullv => .str "N/A"
  | .undef => .str "N/A"
  | .num q => .str (toFixed1 q)
  | .str s => .str s
  | .bool b => .bool b
  | .obj => .obj

/-- From src/frontend/src/components/HeadToHead.jsx, formatStat (textually
identical to the NaturalLanguageQuery copy). -/
def formatStatHeadToHead : JSValue → JSValue
  | .nullv => .str "N/A"
  | .undef => .str "N/A"
  | .num q => .str (toFixed1 q)
  | .str s => .str s
  | .bool b => .bool b
  | .obj => .obj

/-- A string that carries exactly one decimal place: it is some text followed
by a dot and a single digit character. -/
def hasOneDecimal (s : String) : Prop :=
  ∃ pre k, k < 10 ∧ s = pre ++ "." ++ String.singleton (digitChar k)

/-- The season argument of the API client, a JavaScript string-or-null. -/
inductive JSStr where
  | nullv
  | str (s : String)
deriving DecidableEq

/-- The lastN argument of the API client, a JavaScript number-or-null
(integral, as produced by parseInt in HeadToHead.jsx). -/
inductive JSNum where
  | nullv
  | num (n : Int)
deriving DecidableEq

/-- JavaScript truthiness of a string-or-null: null and the empty string are
falsy. -/
def jsTruthyStr : JSStr → Bool
  | .nullv => false
  | .str s => !(s == "")

/-- JavaScript truthiness of a number-or-null: null and zero are falsy. -/
def jsTruthyNum : JSNum → Bool
  | .nullv => false
  | .num n => !(n == 0)

/-- Template interpolation of the season value. -/
def seasonText : JSStr → String
  | .nullv => "null"
  | .str s => s

/-- Template interpolation of the lastN value. -/
def lastNText : JSNum → String
  | .nullv => "null"
  | .num n => toString n

/-- From src/frontend/src/services/api.js, getPlayerGameLogs: the per-season
URL template, parameterized by the encodeURIComponent collaborator. -/
def perSeasonUrl (enc : String → String) (p1 p2 season : String) : String :=
  "/compare/players/" ++ enc p1 ++ "/" ++ enc p2 ++ "/game-logs/seasons/" ++ season

/-- From src/frontend/src/services/api.js, getPlayerGameLogs: the all-seasons
URL template, parameterized by the encodeURIComponent collaborator. -/
def allSeasonsUrl (enc : String → String) (p1 p2 : String) : String :=
  "/compare/players/" ++ enc p1 ++ "/" ++ enc p2 ++ "/game-logs/all-seasons"

/-- From src/frontend/src/services/api.js, getPlayerGameLogs: choose the
per-season URL when season is truthy, the all-seasons URL otherwise, then
append the last_n query parameter when lastN is truthy. -/
def getPlayerGameLogsUrl (enc : String → String) (p1 p2 : String)
    (season : JSStr) (lastN : JSNum) : String :=
  let url :=
    if jsTruthyStr season then perSeasonUrl enc p1 p2 (seasonText season)
    else allSeasonsUrl enc p1 p2
  if jsTruthyNum lastN then url ++ "?last_n=" ++ lastNText lastN else url

/-! ## Concrete fixtures for the witnesses -/

/-- A small fixture entity index. -/
def fixIdx : EntityIndex :=
  [⟨"Stephen Curry", [], .player⟩,
   ⟨"LeBron James", [], .player⟩,
   ⟨"Jalen Green", [], .player⟩,
   ⟨"Jalen Smith", [], .player⟩,
   ⟨"Los Angeles Lakers", ["Lakers"], .team⟩,
   ⟨"Golden State Warriors", ["Warriors"], .team⟩]

/-- A fixture season line for Stephen Curry. -/
def curryStats : PlayerSeasonStats :=
  ⟨"Stephen Curry", "2023-24", some 26, some 4, some 5, some 45⟩

/-- A fixture season line for LeBron James. -/
def lebronStats : PlayerSeasonStats :=
  ⟨"LeBron James", "2023-24", some 25, some 7, some 8, some 54⟩

/-- Eleven fixture games, dated most-recent-first. -/
def fixGameLogs : List GameLog :=
  (List.range 11).map (fun i => ⟨11 - i, "LAL", "GSW", 100 + i, 99⟩)

/-- A fixture storage collaborator. -/
def fixStorage : Storage where
  lookupPlayerSeason := fun p s =>
    if p == "Stephen Curry" && s == "2023-24" then some curryStats
    else if p == "LeBron James" && s == "2023-24" then some lebronStats
    else none
  lookupHeadToHeadGames := fun _ _ _ _ => some fixGameLogs
  lookupTeamSeason := fun _ _ _ => some fixGameLogs

/-! ## Claim theorems -/

/-- The five envelope type strings of the spec section 6 response table. -/
def allowedTypes : List String :=
  ["player_stats", "player_comparison", "player_comparison_game_logs",
   "team_comparison_game_logs", "error"]

/-- The payload shape dictated by an envelope type (spec section 6). -/
def dataMatchesType (t : String) (d : EnvelopeData) : Prop :=
  (t = "player_stats" → ∃ s, d = .stats s) ∧
  (t = "player_comparison" → ∃ p1 p2, d = .comparison p1 p2) ∧
  (t = "player_comparison_game_logs" ∨ t = "team_comparison_game_logs" →
    ∃ logs, d = .gameLogs logs) ∧
  (t = "error" → ∃ m, d = .errorMsg m)

theorem strAppendEmpty (s : String) : s ++ "" = s := by
  cases s with
  | mk d => exact congrArg String.mk (List.append_nil d)

theorem strAppendAssoc (a b c : String) : a ++ b ++ c = a ++ (b ++ c) := by
  cases a with
  | mk x =>
    cases b with
    | mk y =>
      cases c with
      | mk z => exact congrArg String.mk (List.append_assoc x y z)

/-- C10: the stat formatter used by every display component is total and
identical across the three components; null and undefined print N/A, a number
prints with exactly one decimal place, and every other value passes through
unchanged, so no stat field, present or absent, can make rendering fail. -/
theorem formatStat_total_and_uniform :
    (∀ v, formatStatNLQ v = formatStatPlayerStats v) ∧
    (∀ v, formatStatNLQ v = formatStatHeadToHead v) ∧
    formatStatNLQ .nullv = .str "N/A" ∧
    formatStatNLQ .undef = .str "N/A" ∧
    (∀ q, formatStatNLQ (.num q) = .str (toFixed1 q)) ∧
    (∀ q, hasOneDecimal (toFixed1 q)) ∧
    (∀ s, formatStatNLQ (.str s) = .str s) ∧
    (∀ b, formatStatNLQ (.bool b) = .bool b) ∧
    formatStatNLQ .obj = .obj := by
  refine ⟨fun v => by cases v <;> rfl, fun v => by cases v <;> rfl, rfl, rfl,
    fun q => rfl, ?_, fun s => rfl, fun b => rfl, rfl⟩
  intro q
  set n : Int := Int.fdiv (20 * q.num + (q.den : Int)) (2 * (q.den : Int)) with hn
  refine ⟨(if n < 0 then "-" else "") ++ toString (n.natAbs / 10), n.natAbs % 10,
    Nat.mod_lt _ (by omega), ?_⟩
  have hd : digitChar (n.natAbs % 10) = digitChar n.natAbs := by
    unfold digitChar
    congr 1
    omega
  rw [hd]
  rfl

/-- C9 counterexample: with season the empty string (a non-null value), the
client still builds the all-seasons URL, so the all-seasons URL is not chosen
exactly when season is null. -/
theorem allSeasons_url_on_empty_season :
    JSStr.str "" ≠ JSStr.nullv ∧
    getPlayerGameLogsUrl id "Stephen Curry" "LeBron James" (JSStr.str "") JSNum.nullv
      = allSeasonsUrl id "Stephen Curry" "LeBron James" ∧
    allSeasonsUrl id "Stephen Curry" "LeBron James"
      ≠ perSeasonUrl id "Stephen Curry" "LeBron James" "" := by
  refine ⟨by decide, rfl, by decide⟩

/-- C9 (amended): getPlayerGameLogs selects the all-seasons URL exactly when
season is falsy (null or the empty string) and the per-season URL otherwise,
and appends the last_n query parameter exactly when lastN is truthy, so
lastN = 0 and lastN = null both produce a request with no last_n parameter. -/
theorem gameLogs_url_selection :
    ∀ (enc : String → String) (p1 p2 : String) (season : JSStr) (lastN : JSNum),
      getPlayerGameLogsUrl enc p1 p2 season lastN =
        (if jsTruthyStr season then perSeasonUrl enc p1 p2 (seasonText season)
         else allSeasonsUrl enc p1 p2) ++
        (if jsTruthyNum lastN then "?last_n=" ++ lastNText lastN else "") ∧
      jsTruthyStr JSStr.nullv = false ∧
      jsTruthyStr (JSStr.str "") = false ∧
      (∀ s, s ≠ "" → jsTruthyStr (JSStr.str s) = true) ∧
      jsTruthyNum JSNum.nullv = false ∧
      jsTruthyNum (JSNum.num 0) = false ∧
      (∀ n : Int, n ≠ 0 → jsTruthyNum (JSNum.num n) = true) := by
  intro enc p1 p2 season lastN
  refine ⟨?_, rfl, rfl, ?_, rfl, by decide, ?_⟩
  · unfold getPlayerGameLogsUrl
    cases hn : jsTruthyNum lastN <;> cases hs : jsTruthyStr season <;>
      simp [hn, hs, strAppendEmpty, strAppendAssoc]
  · intro s h
    simp [jsTruthyStr, h]
  · intro n h
    simp [jsTruthyNum, h]

/-- C9 witness: a non-empty season is truthy, and with season 2023-24 and a
null lastN the client builds exactly the per-season URL with no last_n
parameter. -/
theorem gameLogs_url_selection_witness :
    jsTruthyStr (JSStr.str "2023-24") = true ∧
    getPlayerGameLogsUrl id "Stephen Curry" "LeBron James" (JSStr.str "2023-24") JSNum.nullv
      = perSeasonUrl id "Stephen Curry" "LeBron James" "2023-24" := by
  have h := gameLogs_url_selection id "Stephen Curry" "LeBron James" (JSStr.str "2023-24") JSNum.nullv
  refine ⟨h.2.2.2.1 "2023-24" (by decide), ?_⟩
  rw [h.1]
  decide

/-- C8: a blank query string yields the validation-failure envelope rather
than a crash, and every query string yields some result envelope (the
boundary operation is total). -/
theorem processQuery_empty_validation :
    ∀ (st : Storage) (idx : EntityIndex) (text : String),
      (isBlankQuery text = true →
        processQuery st idx text = ⟨"error", text, .errorMsg emptyQueryMessage⟩) ∧
      ∃ env : ResultEnvelope, processQuery st idx text = env := by
  intro st idx text
  constructor
  · intro h
    simp [processQuery, h]
  · exact ⟨_, rfl⟩

/-- C8 witness: the empty query string is blank and gets the validation
failure envelope. -/
theorem processQuery_empty_validation_witness :
    processQuery fixStorage fixIdx "" = ⟨"error", "", .errorMsg emptyQueryMessage⟩ :=
  (processQuery_empty_validation fixStorage fixIdx "").1 (by decide)

/-- C7: interpret is deterministic; two calls on identical text yield
structurally identical Query-or-QueryError results, and the full boundary
operation is likewise deterministic. -/
theorem interpret_deterministic :
    ∀ (idx : EntityIndex) (t1 t2 : String), t1 = t2 →
      interpret idx t1 = interpret idx t2 ∧
      (∀ st : Storage, processQuery st idx t1 = processQuery st idx t2) := by
  intro idx t1 t2 h
  subst h
  exact ⟨rfl, fun _ => rfl⟩

/-- C7 witness: determinism applied to a concrete supported query text. -/
theorem interpret_deterministic_witness :
    interpret fixIdx "Compare Stephen Curry and LeBron James in 2023-24"
      = interpret fixIdx "Compare Stephen Curry and LeBron James in 2023-24" :=
  (interpret_deterministic fixIdx
    "Compare Stephen Curry and LeBron James in 2023-24"
    "Compare Stephen Curry and LeBron James in 2023-24" rfl).1

/-- C6: resolution of a name fragment is unique exactly when one candidate
remains at the best confidence tier, and a tie between two clearly distinct
entities at the best tier is reported as ambiguity, never silently resolved
to the first candidate. -/
theorem resolver_unique_or_ambiguous :
    ∀ (idx : EntityIndex) (pool : Option EntityKind) (frag : String),
      (∀ e, bestMatches idx pool frag = [e] → resolve idx pool frag = .resolved e) ∧
      (∀ e1 e2, e1 ∈ bestMatches idx pool frag → e2 ∈ bestMatches idx pool frag →
        e1.canonical ≠ e2.canonical →
        resolve idx pool frag = .ambiguous (bestMatches idx pool frag)) := by
  intro idx pool frag
  constructor
  · intro e h
    simp [resolve, h]
  · intro e1 e2 h1 h2 hne
    cases hbm : bestMatches idx pool frag with
    | nil =>
      rw [hbm] at h1
      cases h1
    | cons x xs =>
      cases xs with
      | nil =>
        rw [hbm] at h1 h2
        have he1 : e1 = x := by simpa using h1
        have he2 : e2 = x := by simpa using h2
        exact absurd (by rw [he1, he2]) hne
      | cons y ys =>
        simp [resolve, hbm]

/-- C6 witness: on the fixture index, the partial fragment Steph resolves
uniquely to Stephen Curry through the fuzzy substring tier, while the
fragment Jalen ties two distinct players and is reported as ambiguous. -/
theorem resolver_unique_or_ambiguous_witness :
    resolve fixIdx (some .player) "Steph" = .resolved ⟨"Stephen Curry", [], .player⟩ ∧
    resolve fixIdx (some .player) "Jalen" =
      .ambiguous [⟨"Jalen Green", [], .player⟩, ⟨"Jalen Smith", [], .player⟩] := by
  constructor
  · exact (resolver_unique_or_ambiguous fixIdx (some .player) "Steph").1
      ⟨"Stephen Curry", [], .player⟩ (by decide)
  · have h := (resolver_unique_or_ambiguous fixIdx (some .player) "Jalen").2
      ⟨"Jalen Green", [], .player⟩ ⟨"Jalen Smith", [], .player⟩
      (by decide) (by decide) (by decide)
    rw [h]
    rfl

theorem classify_singleStats_season {toks : List String} {nm s : String}
    (h : classify toks = .singleStats nm s) : seasonOf toks = some s := by
  unfold classify at h
  split at h
  · split at h <;> simp at h
  · split at h
    · split at h
      · rename_i nm0 s0 hn hs hkey
        injection h with h1 h2
        rw [hs, h2]
      · simp at h
    · simp at h

theorem classify_comparisonSeason_season {toks : List String} {a b : String}
    {so : Option String} (h : classify toks = .comparisonSeason a b so) :
    so = seasonOf toks := by
  unfold classify at h
  split at h
  · split at h
    · simp at h
    · injection h with h1 h2 h3
      rw [← h3]
  · split at h
    · split at h <;> simp at h
    · simp at h

theorem classify_comparisonGameLogs_lastN {toks : List String} {a b : String}
    {n : Option Nat} (h : classify toks = .comparisonGameLogs a b n) :
    n = lastNOf toks := by
  unfold classify at h
  split at h
  · split at h
    · injection h with h1 h2 h3
      rw [← h3]
    · simp at h
  · split at h
    · split at h <;> simp at h
    · simp at h

theorem interpretShape_ok_shape {idx : EntityIndex} {toks : List String} {q : Query}
    (h : interpretShape idx toks = .ok q) :
    (∃ (nm : String) (s : String) (e : Entry),
      classify toks = .singleStats nm s ∧ q = .playerStats e.canonical s) ∨
    (∃ a b s x y, classify toks = .comparisonSeason a b (some s) ∧
      (q = .playerComparisonSeason x y s ∨ q = .teamComparisonSeason x y s)) ∨
    (∃ a b n x y, classify toks = .comparisonGameLogs a b n ∧
      (q = .playerComparisonGameLogs x y n ∨ q = .teamComparisonGameLogs x y n)) := by
  unfold interpretShape at h
  split at h
  · simp at h
  · rename_i nm s0 hc
    split at h <;> try simp at h
    rename_i e hr
    exact Or.inl ⟨nm, s0, e, hc, h.symm⟩
  · rename_i a b so hc
    split at h
    · rename_i ea eb hp
      split at h
      · rename_i s1
        injection h with h1
        exact Or.inr (Or.inl ⟨a, b, s1, ea.canonical, eb.canonical, hc, Or.inl h1.symm⟩)
      · simp at h
    · split at h
      · rename_i ta tb ht
        split at h
        · rename_i s1
          injection h with h1
          exact Or.inr (Or.inl ⟨a, b, s1, ta.canonical, tb.canonical, hc, Or.inr h1.symm⟩)
        · simp at h
      · simp at h
  · rename_i a b n hc
    split at h
    · rename_i ea eb hp
      injection h with h1
      exact Or.inr (Or.inr ⟨a, b, n, ea.canonical, eb.canonical, hc, Or.inl h1.symm⟩)
    · split at h
      · rename_i ta tb ht
        injection h with h1
        exact Or.inr (Or.inr ⟨a, b, n, ta.canonical, tb.canonical, hc, Or.inr h1.symm⟩)
      · simp at h

/-- C5: only the exact YYYY-YY season form is accepted: a malformed
season-like token fails the whole query with InvalidSeason, and any season
carried by a successfully interpreted query satisfies the exact form, so no
malformed season such as 2023-2024 is ever silently coerced. -/
theorem season_format_strict :
    ∀ (idx : EntityIndex) (text : String),
      (∀ t, badSeasonOf (tokenize text) = some t →
        interpret idx text = .error (.invalidSeason t)) ∧
      (∀ q s, interpret idx text = .ok q → q.seasonOfQuery = some s →
        validSeason s = true) ∧
      seasonLike "2023-2024" = true ∧
      validSeason "2023-2024" = false ∧
      validSeason "2023-24" = true := by
  intro idx text
  refine ⟨?_, ?_, by decide, by decide, by decide⟩
  · intro t h
    simp [interpret, h]
  · intro q s hok hs
    have hbad : badSeasonOf (tokenize text) = none := by
      cases hb : badSeasonOf (tokenize text) with
      | none => rfl
      | some t => simp [interpret, hb] at hok
    have hshape : interpretShape idx (tokenize text) = .ok q := by
      simpa [interpret, hbad] using hok
    have hseason : seasonOf (tokenize text) = some s := by
      rcases interpretShape_ok_shape hshape with
        ⟨nm, s0, e, hc, hq⟩ | ⟨a, b, s0, x, y, hc, hq⟩ | ⟨a, b, n, x, y, hc, hq⟩
      · rw [hq] at hs
        simp [Query.seasonOfQuery] at hs
        rw [classify_singleStats_season hc, hs]
      · have hcs := classify_comparisonSeason_season hc
        rcases hq with hq | hq <;>
          (rw [hq] at hs; simp [Query.seasonOfQuery] at hs; rw [← hcs, hs])
      · rcases hq with hq | hq <;> (rw [hq] at hs; simp [Query.seasonOfQuery] at hs)
    exact List.find?_some hseason

/-- C5 witness: the malformed season token 2023-2024 inside an otherwise
well-formed comparison query yields the InvalidSeason failure. -/
theorem season_format_strict_witness :
    interpret fixIdx "Compare Stephen Curry and LeBron James in 2023-2024"
      = .error (.invalidSeason "2023-2024") :=
  (season_format_strict fixIdx "Compare Stephen Curry and LeBron James in 2023-2024").1
    "2023-2024" (by decide)

theorem dmt_stats (s : PlayerSeasonStats) : dataMatchesType "player_stats" (.stats s) := by
  refine ⟨fun _ => ⟨s, rfl⟩, fun h => absurd h (by decide), fun h => ?_,
    fun h => absurd h (by decide)⟩
  rcases h with h | h <;> exact absurd h (by decide)

theorem dmt_comparison (p1 p2 : PlayerSeasonStats) :
    dataMatchesType "player_comparison" (.comparison p1 p2) := by
  refine ⟨fun h => absurd h (by decide), fun _ => ⟨p1, p2, rfl⟩, fun h => ?_,
    fun h => absurd h (by decide)⟩
  rcases h with h | h <;> exact absurd h (by decide)

theorem dmt_gameLogs_player (logs : List GameLog) :
    dataMatchesType "player_comparison_game_logs" (.gameLogs logs) := by
  exact ⟨fun h => absurd h (by decide), fun h => absurd h (by decide),
    fun _ => ⟨logs, rfl⟩, fun h => absurd h (by decide)⟩

theorem dmt_gameLogs_team (logs : List GameLog) :
    dataMatchesType "team_comparison_game_logs" (.gameLogs logs) := by
  exact ⟨fun h => absurd h (by decide), fun h => absurd h (by decide),
    fun _ => ⟨logs, rfl⟩, fun h => absurd h (by decide)⟩

theorem dmt_error (m : String) : dataMatchesType "error" (.errorMsg m) := by
  refine ⟨fun h => absurd h (by decide), fun h => absurd h (by decide), fun h => ?_,
    fun _ => ⟨m, rfl⟩⟩
  rcases h with h | h <;> exact absurd h (by decide)

theorem errType : "error" ∈ allowedTypes := by decide

theorem dispatch_envelope (st : Storage) (text : String) (q : Query) :
    (dispatch st text q).type ∈ allowedTypes ∧
    dataMatchesType (dispatch st text q).type (dispatch st text q).data := by
  cases q with
  | playerStats p s =>
    simp only [dispatch]
    cases h : st.lookupPlayerSeason p s with
    | none => exact ⟨errType, dmt_error _⟩
    | some v => exact ⟨show "player_stats" ∈ allowedTypes by decide, dmt_stats _⟩
  | playerComparisonSeason a b s =>
    simp only [dispatch]
    cases h1 : st.lookupPlayerSeason a s with
    | none => cases h2 : st.lookupPlayerSeason b s <;> exact ⟨errType, dmt_error _⟩
    | some v1 =>
      cases h2 : st.lookupPlayerSeason b s with
      | none => exact ⟨errType, dmt_error _⟩
      | some v2 =>
        exact ⟨show "player_comparison" ∈ allowedTypes by decide, dmt_comparison _ _⟩
  | playerComparisonGameLogs a b n =>
    simp only [dispatch]
    cases h : st.lookupHeadToHeadGames a b none n with
    | none => exact ⟨errType, dmt_error _⟩
    | some logs =>
      exact ⟨show "player_comparison_game_logs" ∈ allowedTypes by decide,
        dmt_gameLogs_player _⟩
  | teamComparisonSeason a b s =>
    simp only [dispatch]
    cases h : st.lookupTeamSeason a b s with
    | none => exact ⟨errType, dmt_error _⟩
    | some logs =>
      exact ⟨show "team_comparison_game_logs" ∈ allowedTypes by decide,
        dmt_gameLogs_team _⟩
  | teamComparisonGameLogs a b n =>
    simp only [dispatch]
    cases h : st.lookupHeadToHeadGames a b none n with
    | none => exact ⟨errType, dmt_error _⟩
    | some logs =>
      exact ⟨show "team_comparison_game_logs" ∈ allowedTypes by decide,
        dmt_gameLogs_team _⟩

theorem processQuery_env_inv (st : Storage) (idx : EntityIndex) (text : String) :
    (processQuery st idx text).type ∈ allowedTypes ∧
    dataMatchesType (processQuery st idx text).type (processQuery st idx text).data := by
  unfold processQuery
  split
  · exact ⟨errType, dmt_error _⟩
  · split
    · exact ⟨errType, dmt_error _⟩
    · exact dispatch_envelope st text _

/-- C1: every envelope produced by processQuery has a type naming exactly one
of the recognized query shapes or error, and the shape of the data payload is
fully determined by that type. -/
theorem processQuery_envelope_type_invariant :
    ∀ (st : Storage) (idx : EntityIndex) (text : String),
      (processQuery st idx text).type ∈ allowedTypes ∧
      dataMatchesType (processQuery st idx text).type (processQuery st idx text).data :=
  fun st idx text => processQuery_env_inv st idx text

set_option maxRecDepth 8192 in
/-- C1 witness: a concrete stats question produces a recognized type and a
stats-shaped payload. -/
theorem processQuery_envelope_type_invariant_witness :
    (processQuery fixStorage fixIdx "How many points did Stephen Curry score in 2023-24?").type
      ∈ allowedTypes ∧
    ∃ s, (processQuery fixStorage fixIdx
      "How many points did Stephen Curry score in 2023-24?").data = EnvelopeData.stats s :=
  ⟨(processQuery_envelope_type_invariant fixStorage fixIdx
      "How many points did Stephen Curry score in 2023-24?").1,
   (processQuery_envelope_type_invariant fixStorage fixIdx
      "How many points did Stephen Curry score in 2023-24?").2.1 rfl⟩

/-- Mirrors the lookups whose absence makes a dispatch degrade to the
data-unavailable error envelope. -/
def dispatchFailed (st : Storage) : Query → Bool
  | .playerStats p s => (st.lookupPlayerSeason p s).isNone
  | .playerComparisonSeason a b s =>
    (st.lookupPlayerSeason a s).isNone || (st.lookupPlayerSeason b s).isNone
  | .playerComparisonGameLogs a b n => (st.lookupHeadToHeadGames a b none n).isNone
  | .teamComparisonSeason a b s => (st.lookupTeamSeason a b s).isNone
  | .teamComparisonGameLogs a b n => (st.lookupHeadToHeadGames a b none n).isNone

/-- C2: every failure is recovered into an error envelope with a
human-readable message: an error-typed envelope always carries a message, an
interpreter failure of any kind yields exactly the envelope with that failure
message, and a resolved query whose storage lookups come back empty yields
the data-unavailable error envelope; processQuery is total, so no input
propagates an unhandled fault. -/
theorem errors_become_error_envelope :
    ∀ (st : Storage) (idx : EntityIndex) (text : String),
      ((processQuery st idx text).type = "error" →
        ∃ m, (processQuery st idx text).data = .errorMsg m) ∧
      (∀ qe, isBlankQuery text = false → interpret idx text = .error qe →
        processQuery st idx text = ⟨"error", text, .errorMsg qe.message⟩) ∧
      (∀ q, isBlankQuery text = false → interpret idx text = .ok q →
        dispatchFailed st q = true →
        processQuery st idx text = ⟨"error", text, .errorMsg dataUnavailableMessage⟩) := by
  intro st idx text
  refine ⟨(processQuery_env_inv st idx text).2.2.2.2, ?_, ?_⟩
  · intro qe hb he
    simp [processQuery, hb, he]
  · intro q hb hq hf
    have hd : processQuery st idx text = dispatch st text q := by
      simp [processQuery, hb, hq]
    rw [hd]
    cases q with
    | playerStats p s =>
      simp only [dispatch]
      cases h : st.lookupPlayerSeason p s with
      | none => rfl
      | some v => simp [dispatchFailed, h] at hf
    | playerComparisonSeason a b s =>
      simp only [dispatch]
      cases h1 : st.lookupPlayerSeason a s with
      | none => cases h2 : st.lookupPlayerSeason b s <;> rfl
      | some v1 =>
        cases h2 : st.lookupPlayerSeason b s with
        | none => rfl
        | some v2 => simp [dispatchFailed, h1, h2] at hf
    | playerComparisonGameLogs a b n =>
      simp only [dispatch]
      cases h : st.lookupHeadToHeadGames a b none n with
      | none => rfl
      | some logs => simp [dispatchFailed, h] at hf
    | teamComparisonSeason a b s =>
      simp only [dispatch]
      cases h : st.lookupTeamSeason a b s with
      | none => rfl
      | some logs => simp [dispatchFailed, h] at hf
    | teamComparisonGameLogs a b n =>
      simp only [dispatch]
      cases h : st.lookupHeadToHeadGames a b none n with
      | none => rfl
      | some logs => simp [dispatchFailed, h] at hf

set_option maxRecDepth 8192 in
/-- C2 witness: unrecognized text yields exactly the error envelope carrying
the rephrase-prompting unrecognized message. -/
theorem errors_become_error_envelope_witness :
    processQuery fixStorage fixIdx "what is the weather"
      = ⟨"error", "what is the weather", .errorMsg QueryError.unrecognized.message⟩ :=
  (errors_become_error_envelope fixStorage fixIdx "what is the weather").2.1
    QueryError.unrecognized (by decide) (by decide)

theorem interpret_ok_shape {idx : EntityIndex} {text : String} {q : Query}
    (h : interpret idx text = .ok q) :
    interpretShape idx (tokenize text) = .ok q := by
  cases hb : badSeasonOf (tokenize text) with
  | some t => simp [interpret, hb] at h
  | none => simpa [interpret, hb] using h

theorem interpret_gameLogs_shape {idx : EntityIndex} {toks : List String}
    {q : Query} {a b : String} {no : Option Nat}
    (hcls : classify toks = .comparisonGameLogs a b no)
    (hok : interpretShape idx toks = .ok q) :
    (∃ x y, q = .playerComparisonGameLogs x y no) ∨
    (∃ x y, q = .teamComparisonGameLogs x y no) := by
  rcases interpretShape_ok_shape hok with
    ⟨nm, s0, e, hc, hq⟩ | ⟨a0, b0, s0, x, y, hc, hq⟩ | ⟨a0, b0, n0, x, y, hc, hq⟩
  · rw [hc] at hcls
    simp at hcls
  · rw [hc] at hcls
    simp at hcls
  · rw [hc] at hcls
    injection hcls with e1 e2 e3
    rcases hq with hq | hq
    · exact Or.inl ⟨x, y, by rw [hq, e3]⟩
    · exact Or.inr ⟨x, y, by rw [hq, e3]⟩

theorem sortDesc_length (logs : List GameLog) : (sortDesc logs).length = logs.length :=
  (List.perm_insertionSort recentFirst logs).length_eq

theorem capAndSort_some_length (n : Nat) (logs : List GameLog) :
    (capAndSort (some n) logs).length ≤ n :=
  List.length_take_le n (sortDesc logs)

theorem capAndSort_pairwise (no : Option Nat) (logs : List GameLog) :
    List.Pairwise recentFirst (capAndSort no logs) := by
  have hs : List.Pairwise recentFirst (sortDesc logs) :=
    List.sorted_insertionSort recentFirst logs
  cases no with
  | none => exact hs
  | some n => exact List.Pairwise.sublist (List.take_sublist n (sortDesc logs)) hs

/-- C4: two names with a last-N-games phrase classify to the comparison
game-log shape with N captured as an integer and season absent, taking
precedence over the season-comparison shape; any interpreted query from such
text carries that window and no season, and any game-log payload produced for
it has length at most N and is ordered most-recent-first. -/
theorem lastN_comparison_precedence :
    ∀ (st : Storage) (idx : EntityIndex) (text a b : String) (n : Nat),
      extractTwoNames (tokenize text) = some (a, b) →
      gameLogShaped (tokenize text) = true →
      lastNOf (tokenize text) = some n →
      classify (tokenize text) = .comparisonGameLogs a b (some n) ∧
      (∀ q, interpret idx text = .ok q →
        q.seasonOfQuery = none ∧ q.lastNOfQuery = some n) ∧
      (∀ logs, (processQuery st idx text).data = .gameLogs logs →
        logs.length ≤ n ∧ List.Pairwise recentFirst logs) := by
  intro st idx text a b n h1 h2 h3
  have hcls : classify (tokenize text) = .comparisonGameLogs a b (some n) := by
    simp [classify, h1, h2, h3]
  refine ⟨hcls, ?_, ?_⟩
  · intro q hok
    rcases interpret_gameLogs_shape hcls (interpret_ok_shape hok) with
      ⟨x, y, hq⟩ | ⟨x, y, hq⟩ <;> (rw [hq]; exact ⟨rfl, rfl⟩)
  · intro logs hdata
    unfold processQuery at hdata
    split at hdata
    · simp at hdata
    · split at hdata
      · simp at hdata
      · rename_i q hok
        rcases interpret_gameLogs_shape hcls (interpret_ok_shape hok) with
          ⟨x, y, hq⟩ | ⟨x, y, hq⟩
        · rw [hq] at hdata
          simp only [dispatch] at hdata
          cases hl : st.lookupHeadToHeadGames x y none (some n) with
          | none => rw [hl] at hdata; simp at hdata
          | some raw =>
            rw [hl] at hdata
            simp at hdata
            rw [← hdata]
            exact ⟨capAndSort_some_length n raw, capAndSort_pairwise (some n) raw⟩
        · rw [hq] at hdata
          simp only [dispatch] at hdata
          cases hl : st.lookupHeadToHeadGames x y none (some n) with
          | none => rw [hl] at hdata; simp at hdata
          | some raw =>
            rw [hl] at hdata
            simp at hdata
            rw [← hdata]
            exact ⟨capAndSort_some_length n raw, capAndSort_pairwise (some n) raw⟩

set_option maxRecDepth 8192 in
/-- C4 witness: the example comparison text with last 5 games classifies to
the game-log comparison shape with N = 5 and no season. -/
theorem lastN_comparison_precedence_witness :
    classify (tokenize "Compare Stephen Curry and LeBron James last 5 games")
      = .comparisonGameLogs "Stephen Curry" "LeBron James" (some 5) :=
  (lastN_comparison_precedence fixStorage fixIdx
    "Compare Stephen Curry and LeBron James last 5 games" "Stephen Curry" "LeBron James" 5
    (by decide) (by decide) (by decide)).1

set_option maxRecDepth 8192 in
/-- C3 counterexample: for a game-log query with no last-N integer, the
engine returns all eleven available games, but the NaturalLanguageQuery
result view renders data.game_logs.slice(0, 10) and so presents only the
first ten of them, an implicit cap on the presented sequence. -/
theorem gameLogs_presented_capped_at_ten :
    (processQuery fixStorage fixIdx "Lakers vs Warriors game logs").data
      = EnvelopeData.gameLogs (sortDesc fixGameLogs) ∧
    (sortDesc fixGameLogs).length = 11 ∧
    (renderedGameLogRows (sortDesc fixGameLogs)).length = 10 ∧
    renderedGameLogRows (sortDesc fixGameLogs) ≠ sortDesc fixGameLogs :=
  ⟨rfl, rfl, rfl, by decide⟩

/-- C3 (amended): for every game-log-shaped query in which no last-N integer
is supplied, the returned game-log sequence is the full sequence the storage
collaborator provides, with no implicit cap on its length; the
NaturalLanguageQuery result view however presents at most the first ten
entries of the returned sequence. -/
theorem no_cap_on_returned_gameLogs :
    ∀ (st : Storage) (idx : EntityIndex) (text a b : String),
      extractTwoNames (tokenize text) = some (a, b) →
      gameLogShaped (tokenize text) = true →
      lastNOf (tokenize text) = none →
      (∀ logs, (processQuery st idx text).data = .gameLogs logs →
        ∃ (x y : String) (raw : List GameLog),
          st.lookupHeadToHeadGames x y none none = some raw ∧
          logs = sortDesc raw ∧ logs.length = raw.length) ∧
      (∀ logs : List GameLog, renderedGameLogRows logs = logs.take 10) := by
  intro st idx text a b h1 h2 h3
  have hcls : classify (tokenize text) = .comparisonGameLogs a b none := by
    simp [classify, h1, h2, h3]
  refine ⟨?_, fun logs => rfl⟩
  intro logs hdata
  unfold processQuery at hdata
  split at hdata
  · simp at hdata
  · split at hdata
    · simp at hdata
    · rename_i q hok
      rcases interpret_gameLogs_shape hcls (interpret_ok_shape hok) with
        ⟨x, y, hq⟩ | ⟨x, y, hq⟩
      · rw [hq] at hdata
        simp only [dispatch] at hdata
        cases hl : st.lookupHeadToHeadGames x y none none with
        | none => rw [hl] at hdata; simp at hdata
        | some raw =>
          rw [hl] at hdata
          simp at hdata
          exact ⟨x, y, raw, hl, hdata.symm, by rw [← hdata]; exact sortDesc_length raw⟩
      · rw [hq] at hdata
        simp only [dispatch] at hdata
        cases hl : st.lookupHeadToHeadGames x y none none with
        | none => rw [hl] at hdata; simp at hdata
        | some raw =>
          rw [hl] at hdata
          simp at hdata
          exact ⟨x, y, raw, hl, hdata.symm, by rw [← hdata]; exact sortDesc_length raw⟩

set_option maxRecDepth 8192 in
/-- C3 witness: the fixture game-log query with no last-N returns all eleven
stored games uncapped. -/
theorem no_cap_on_returned_gameLogs_witness :
    ∃ (x y : String) (raw : List GameLog),
      fixStorage.lookupHeadToHeadGames x y none none = some raw ∧
      sortDesc fixGameLogs = sortDesc raw ∧
      (sortDesc fixGameLogs).length = raw.length :=
  (no_cap_on_returned_gameLogs fixStorage fixIdx "Lakers vs Warriors game logs"
    "Lakers" "Warriors" (by decide) (by decide) (by decide)).1
    (sortDesc fixGameLogs) rfl

end StatPad
